import Mathlib

/-!
Verification of the code snippets of the repository: the `tasksReducer`
example, the parent/child prop-passing pair, the three conditional-rendering
variants of `Item`, and the `useCart` custom hook.

JavaScript numbers used as ids and prices are modelled as `Int`; strings as
`String`; a JS function that can throw is modelled as returning
`Except String`, carrying the thrown error message.
-/

namespace React

/-- A task object `{id, text, done}` as built and consumed by `tasksReducer`
(src/3_State_Management_Deep_Dive/7_The_need_of_UseReducer/README.md). -/
structure Task where
  id : Int
  text : String
  done : Bool
deriving DecidableEq, Repr

/-- An action object dispatched to `tasksReducer`.  The JS object carries a
`type` string plus, depending on the type, an `id`, a `text`, or a whole
`task`; fields a given dispatch site does not set are simply never read by the
corresponding branch, so modelling them as always-present fields is faithful. -/
structure Action where
  type : String
  id : Int
  text : String
  task : Task
deriving DecidableEq, Repr

/-- Shallow embedding of `tasksReducer(tasks, action)`
(src/3_State_Management_Deep_Dive/7_The_need_of_UseReducer/README.md,
lines 69-97).  The `switch (action.type)` becomes an if-chain over the
`type` string; `[...tasks, {...}]` is append at the end; `tasks.map` and
`tasks.filter` keep their meaning; the `default` branch
`throw Error('Unknown action: ' + action.type)` becomes `Except.error`. -/
def tasksReducer (tasks : List Task) (action : Action) : Except String (List Task) :=
  if action.type = "added" then
    Except.ok (tasks ++ [{ id := action.id, text := action.text, done := false }])
  else if action.type = "changed" then
    Except.ok (tasks.map fun t => if t.id = action.task.id then action.task else t)
  else if action.type = "deleted" then
    Except.ok (tasks.filter fun t => t.id ≠ action.id)
  else
    Except.error ("Unknown action: " ++ action.type)

/-- C3: dispatching `added` appends `{id, text, done: false}`, keeping every
pre-existing element unchanged and in order. -/
theorem tasksReducer_added (tasks : List Task) (i : Int) (t : String) (tk : Task) :
    tasksReducer tasks { type := "added", id := i, text := t, task := tk }
      = Except.ok (tasks ++ [{ id := i, text := t, done := false }]) := by
  rfl

/-- C1: `tasksReducer` returns normally exactly on the action types `added`,
`changed` and `deleted`; on any other type it throws an `Error` whose message
is `'Unknown action: '` followed by the action type. -/
theorem tasksReducer_ok_iff (tasks : List Task) (a : Action) :
    ((∃ out, tasksReducer tasks a = Except.ok out) ↔
      (a.type = "added" ∨ a.type = "changed" ∨ a.type = "deleted")) ∧
    (¬ (a.type = "added" ∨ a.type = "changed" ∨ a.type = "deleted") →
      tasksReducer tasks a = Except.error ("Unknown action: " ++ a.type)) := by
  unfold tasksReducer
  by_cases h1 : a.type = "added" <;> by_cases h2 : a.type = "changed" <;>
    by_cases h3 : a.type = "deleted" <;>
    simp [h1, h2, h3]

/-- Witness for C1 at a concrete unknown action type. -/
theorem tasksReducer_ok_iff_witness :
    tasksReducer [] { type := "removed", id := 0, text := "", task := { id := 0, text := "", done := false } }
      = Except.error "Unknown action: removed" := by
  have h := (tasksReducer_ok_iff []
    { type := "removed", id := 0, text := "", task := { id := 0, text := "", done := false } }).2
    (by decide)
  simpa using h

/-- C4: dispatching `changed` keeps the length and replaces exactly the
elements whose id equals `action.task.id` by `action.task`, leaving every
other position untouched. -/
theorem tasksReducer_changed (tasks : List Task) (i : Int) (txt : String) (tk : Task) :
    ∃ out, tasksReducer tasks { type := "changed", id := i, text := txt, task := tk }
        = Except.ok out ∧
      out.length = tasks.length ∧
      ∀ j : Nat, out[j]? = (tasks[j]?).map fun t => if t.id = tk.id then tk else t := by
  refine ⟨tasks.map fun t => if t.id = tk.id then tk else t, ?_, List.length_map .., ?_⟩
  · rfl
  · intro j
    exact List.getElem?_map ..

/-- C5: dispatching `deleted` keeps exactly the elements whose id differs from
`action.id`, in their original relative order; when no element carries that id
the result is the input list itself. -/
theorem tasksReducer_deleted (tasks : List Task) (i : Int) (txt : String) (tk : Task) :
    tasksReducer tasks { type := "deleted", id := i, text := txt, task := tk }
        = Except.ok (tasks.filter fun t => t.id ≠ i) ∧
    ((∀ t ∈ tasks, t.id ≠ i) →
      tasksReducer tasks { type := "deleted", id := i, text := txt, task := tk }
        = Except.ok tasks) := by
  refine ⟨rfl, fun h => ?_⟩
  simp only [tasksReducer, String.reduceEq, if_false, if_true, reduceIte,
    Except.ok.injEq]
  rw [List.filter_eq_self]
  intro t ht
  simpa using h t ht

/-- Witness for C5: deleting an id not present leaves the list unchanged. -/
theorem tasksReducer_deleted_witness :
    tasksReducer [{ id := 1, text := "a", done := false }]
        { type := "deleted", id := 2, text := "", task := { id := 0, text := "", done := false } }
      = Except.ok [{ id := 1, text := "a", done := false }] :=
  (tasksReducer_deleted [{ id := 1, text := "a", done := false }] 2 ""
    { id := 0, text := "", done := false }).2 (by decide)

/-- C7: `tasksReducer` is deterministic and depends only on its two arguments:
runs on equal task lists and equal actions produce equal outcomes (equal
result lists, or the same thrown error). -/
theorem tasksReducer_deterministic (t1 t2 : List Task) (a1 a2 : Action)
    (ht : t1 = t2) (ha : a1 = a2) :
    tasksReducer t1 a1 = tasksReducer t2 a2 := by
  rw [ht, ha]

/-- Witness for C7 at concrete equal inputs. -/
theorem tasksReducer_deterministic_witness :
    tasksReducer [] { type := "added", id := 1, text := "x", task := { id := 0, text := "", done := false } }
      = tasksReducer [] { type := "added", id := 1, text := "x", task := { id := 0, text := "", done := false } } :=
  tasksReducer_deterministic [] [] _ _ rfl rfl

/-- C9: on a list with no element of id `i`, dispatching `added` with id `i`
and then `deleted` with id `i` gives back the original list. -/
theorem tasksReducer_add_delete_roundtrip (tasks : List Task) (i : Int)
    (t txt : String) (tk1 tk2 : Task) (h : ∀ x ∈ tasks, x.id ≠ i) :
    ∃ mid, tasksReducer tasks { type := "added", id := i, text := t, task := tk1 }
        = Except.ok mid ∧
      tasksReducer mid { type := "deleted", id := i, text := txt, task := tk2 }
        = Except.ok tasks := by
  refine ⟨tasks ++ [({ id := i, text := t, done := false } : Task)], ?_, ?_⟩
  · rfl
  have hfilter : (tasks ++ [({ id := i, text := t, done := false } : Task)]).filter
      (fun x => decide (x.id ≠ i)) = tasks := by
    rw [List.filter_append]
    have h1 : tasks.filter (fun x => decide (x.id ≠ i)) = tasks := by
      rw [List.filter_eq_self]
      intro x hx
      simpa using h x hx
    have h2 : List.filter (fun x => decide (x.id ≠ i))
        [({ id := i, text := t, done := false } : Task)] = [] := by
      simp
    rw [h1, h2, List.append_nil]
  simp only [tasksReducer, String.reduceEq, reduceIte, Except.ok.injEq]
  exact hfilter

/-- Witness for C9 on a concrete list without the added id. -/
theorem tasksReducer_add_delete_roundtrip_witness :
    ∃ mid, tasksReducer [{ id := 1, text := "a", done := true }]
        { type := "added", id := 2, text := "b", task := { id := 0, text := "", done := false } }
        = Except.ok mid ∧
      tasksReducer mid { type := "deleted", id := 2, text := "", task := { id := 0, text := "", done := false } }
        = Except.ok [{ id := 1, text := "a", done := true }] :=
  tasksReducer_add_delete_roundtrip [{ id := 1, text := "a", done := true }] 2 "b" ""
    { id := 0, text := "", done := false } { id := 0, text := "", done := false } (by decide)

/-! ### Parent/child prop passing (C2)

src/1_Describing_The_UI/6_Props/Examples/src/Components/1_ParentComponent.jsx
renders `<Avatar person={user} size={100} />`;
src/6_Props/Examples/src/Components/2_MiddleComponent.jsx defines
`Avatar({ name, imageId, size })`.  A JS props object may lack a key, in which
case destructuring yields `undefined`; absent keys are modelled as `none`. -/

/-- The `user` object of ParentComponent. -/
structure User where
  name : String
  imageId : String
deriving DecidableEq, Repr

/-- The props object a render site passes to `Avatar`.  Keys the caller does
not write are absent (`none`), and destructuring an absent key in JS yields
`undefined`. -/
structure AvatarProps where
  person : Option User
  name : Option String
  imageId : Option String
  size : Option Nat
deriving DecidableEq, Repr

/-- The props ParentComponent passes:
`<Avatar person={user} size={100} />` with
`user = { name: "Lin Lanying", imageId: "1bX5QH6" }`.  No top-level `name` or
`imageId` key is passed. -/
def parentAvatarProps : AvatarProps :=
  { person := some { name := "Lin Lanying", imageId := "1bX5QH6" }
    name := none
    imageId := none
    size := some 100 }

/-- The attributes of the `img` element. -/
structure ImgAttrs where
  src : Option String
  alt : Option String
  width : Option Nat
  height : Option Nat
deriving DecidableEq, Repr

/-- The first `img` element `Avatar` renders.  The component destructures
`{ name, imageId, size }` from its props object and sets
`src={imageId} alt={name} width={size} height={size}`. -/
def avatarImg (props : AvatarProps) : ImgAttrs :=
  { src := props.imageId
    alt := props.name
    width := props.size
    height := props.size }

/-- C2 counter-evidence: with the props ParentComponent actually passes, the
`img` rendered by `Avatar` has `width` and `height` 100 but `src` and `alt`
are `undefined`, because `Avatar` destructures top-level `name` and `imageId`
keys while the parent put the user object under the `person` key (as `Avatar`'s
own comment documents). -/
theorem avatarImg_parent_undefined :
    avatarImg parentAvatarProps
        = { src := none, alt := none, width := some 100, height := some 100 } ∧
      avatarImg parentAvatarProps
        ≠ { src := some "1bX5QH6", alt := some "Lin Lanying",
            width := some 100, height := some 100 } := by
  decide

/-! ### The useCart custom hook (C10)

src/unnamed/part_004, lines 722-746.  `addItem` queues
`setItems(prev => [...prev, item])` and `setTotal(prev => prev + item.price)`.
`removeItem` queues `setItems(prev => prev.filter(item => item.id !== id))`
and `setTotal(prev => { const itemToRemove = prev.find(item => item.id === id);
return prev - (itemToRemove?.price || 0); })`.  In the `setTotal` updater,
`prev` is the previous numeric total, and numbers have no `find` method, so
evaluating `prev.find(...)` throws a `TypeError`. -/

/-- An item placed in the cart; `price` is a JS number, modelled as `Int`. -/
structure CartItem where
  id : Int
  price : Int
deriving DecidableEq, Repr

/-- The state held by `useCart`: the `items` and `total` `useState` cells. -/
structure CartState where
  items : List CartItem
  total : Int
deriving DecidableEq, Repr

/-- The initial state of `useCart`: `useState([])` and `useState(0)`. -/
def initialCart : CartState := { items := [], total := 0 }

/-- `addItem(item)`: appends the item and adds its price to the total. -/
def addItem (s : CartState) (item : CartItem) : CartState :=
  { items := s.items ++ [item], total := s.total + item.price }

/-- The `setTotal` updater of `removeItem`.  Its parameter `prev` is the
previous total, a number; the updater body evaluates `prev.find(...)`, and a
number has no `find` method, so the call throws
`TypeError: prev.find is not a function` before the subtraction is reached. -/
def removeItemTotal (prevTotal : Int) : Except String Int :=
  Except.error "TypeError: prev.find is not a function"

/-- `removeItem(id)`: the `setItems` updater filters out items with the given
id, and the `setTotal` updater then throws (see `removeItemTotal`), so the
state update as a whole fails. -/
def removeItem (s : CartState) (id : Int) : Except String CartState :=
  match removeItemTotal s.total with
  | Except.error e => Except.error e
  | Except.ok newTotal =>
      Except.ok { items := s.items.filter fun item => item.id ≠ id, total := newTotal }

/-- The invariant claimed for `useCart`: the total equals the sum of the
prices of the items in the cart. -/
def cartInvariant (s : CartState) : Prop :=
  s.total = (s.items.map CartItem.price).sum

/-- C10 counter-evidence: the invariant holds initially and `addItem`
preserves it, but every `removeItem` call throws a `TypeError` — including on
an id that is not in the cart — because its `setTotal` updater calls
`prev.find` on the previous numeric total.  Evaluated at the concrete cart
`{items: [{id: 1, price: 5}], total: 5}`. -/
theorem removeItem_throws :
    cartInvariant initialCart ∧
      addItem initialCart { id := 1, price := 5 }
        = { items := [{ id := 1, price := 5 }], total := 5 } ∧
      removeItem { items := [{ id := 1, price := 5 }], total := 5 } 1
        = Except.error "TypeError: prev.find is not a function" ∧
      removeItem { items := [{ id := 1, price := 5 }], total := 5 } 2
        = Except.error "TypeError: prev.find is not a function" := by
  refine ⟨?_, by decide, rfl, rfl⟩
  simp [cartInvariant, initialCart]

/-! ### Conditional rendering: the three Item variants (C8)

src/unnamed/part_001, lines 235-240 (if statement), 249-255 (ternary) and
271-277 (logical AND).  The children of the rendered `li` are modelled as a
list of JSX child nodes; React renders nothing for `false`, `null` and
`undefined`.  JSX keeps the literal whitespace between expressions on a line,
so `{name} ✔` contributes the text `" ✔"` and `{name} {isPacked && "✔"}` has
a `" "` text child between the two expressions; HTML rendering collapses
trailing whitespace inside a block element, so visible text is the
concatenated text with trailing whitespace removed. -/

/-- A JSX child node: a piece of text, or an empty rendering (what React
produces for `false`, `null` or `undefined`). -/
inductive JsxChild where
  | text (s : String)
  | nothing
deriving DecidableEq, Repr

/-- The characters a child contributes to the rendered text. -/
def renderChild : JsxChild → List Char
  | JsxChild.text s => s.data
  | JsxChild.nothing => []

/-- The text content of a child list, in order. -/
def textContent (cs : List JsxChild) : List Char :=
  (cs.map renderChild).flatten

/-- Trailing whitespace at the end of a block-level element is collapsed by
HTML rendering and is never visible. -/
def dropTrailingWhitespace (s : List Char) : List Char :=
  (s.reverse.dropWhile Char.isWhitespace).reverse

/-- The visible text of a rendered child list. -/
def visibleText (cs : List JsxChild) : List Char :=
  dropTrailingWhitespace (textContent cs)

/-- Method 1: `if (isPacked) return <li className="item">{name} ✔</li>;
return <li className="item">{name}</li>;`. -/
def itemIf (name : String) (isPacked : Bool) : List JsxChild :=
  if isPacked then [JsxChild.text name, JsxChild.text " ✔"]
  else [JsxChild.text name]

/-- Method 2: `<li className="item">{isPacked ? name + " ✔" : name}</li>`. -/
def itemTernary (name : String) (isPacked : Bool) : List JsxChild :=
  [JsxChild.text (if isPacked then name ++ " ✔" else name)]

/-- Method 3: `<li className="item">{name} {isPacked && "✔"}</li>`; when
`isPacked` is false the `&&` expression evaluates to `false`, which React
renders as nothing. -/
def itemAnd (name : String) (isPacked : Bool) : List JsxChild :=
  [JsxChild.text name, JsxChild.text " ",
    if isPacked then JsxChild.text "✔" else JsxChild.nothing]

theorem dropTrailingWhitespace_check (l : List Char) :
    dropTrailingWhitespace (l ++ [' ', '✔']) = l ++ [' ', '✔'] := by
  have h : Char.isWhitespace '✔' = false := by decide
  simp [dropTrailingWhitespace, List.dropWhile_cons, h]

theorem dropTrailingWhitespace_space (l : List Char) :
    dropTrailingWhitespace (l ++ [' ']) = dropTrailingWhitespace l := by
  have h : Char.isWhitespace ' ' = true := by decide
  simp [dropTrailingWhitespace, List.dropWhile_cons, h]

/-- C8: the if-statement, ternary and logical-AND variants of `Item` have the
same visible text for every name and packed flag: the name followed by
`" ✔"` when packed, and (up to invisible trailing whitespace) the name alone
when not packed. -/
theorem item_variants_equiv (name : String) (isPacked : Bool) :
    visibleText (itemIf name isPacked) = visibleText (itemTernary name isPacked) ∧
    visibleText (itemTernary name isPacked) = visibleText (itemAnd name isPacked) ∧
    visibleText (itemIf name true) = name.data ++ [' ', '✔'] ∧
    visibleText (itemIf name false) = dropTrailingWhitespace name.data := by
  have hcheck : (" ✔" : String).data = [' ', '✔'] := by decide
  have hspace : (" " : String).data = [' '] := by decide
  have htick : ("✔" : String).data = ['✔'] := by decide
  have happ : ∀ a b : String, (a ++ b).data = a.data ++ b.data := fun a b => rfl
  cases isPacked with
  | true =>
      refine ⟨?_, ?_, ?_, ?_⟩ <;>
        simp [visibleText, textContent, itemIf, itemTernary, itemAnd,
          renderChild, hcheck, hspace, htick, happ,
          dropTrailingWhitespace_check]
  | false =>
      refine ⟨?_, ?_, ?_, ?_⟩ <;>
        simp [visibleText, textContent, itemIf, itemTernary, itemAnd,
          renderChild, hcheck, hspace, htick, happ,
          dropTrailingWhitespace_check, dropTrailingWhitespace_space]

end React
